import Mathlib

/-!
Verification of the routing behavior of `server.py`: a five-route web
application where each route handler renders a fixed, static HTML template.
We shallowly embed the route handlers, the route table, and the hosting
framework's dispatch step (exact path match, default 404 / 405 responses,
propagation of template-rendering failures) and prove the specified
properties about them.
-/

namespace Server

/-- The on-disk template store: maps a template file name to its contents,
or `none` when the file is missing or unreadable.  This models the input the
external template-rendering collaborator reads. -/
abbrev Templates := String → Option String

/-- Failure of the template renderer: the named template file is missing or
unreadable (Jinja's `TemplateNotFound`).  The repository defines no handling
for it, so it is propagated as an `Except.error`. -/
inductive TemplateError where
  | templateNotFound (name : String)
  deriving DecidableEq, Repr

/-- An HTTP response: status code and body. -/
structure HttpResponse where
  status : Nat
  body : String
  deriving DecidableEq, Repr

/-- An HTTP request: method, path, and the request-supplied data (query
parameters, headers, body) that no handler in `server.py` ever reads. -/
structure Request where
  method : String
  path : String
  query : List (String × String)
  headers : List (String × String)
  body : String
  deriving DecidableEq, Repr

/-- Substitution of template variables into template contents, as the
rendering collaborator would perform it: each context variable `k` bound to
`v` replaces the placeholder `\x7b\x7b k \x7d\x7d` in the text.  With an
empty context the contents pass through verbatim. -/
def substitute (vars : List (String × String)) (contents : String) : String :=
  vars.foldl (fun acc kv =>
    acc.replace ("\x7b\x7b" ++ kv.1 ++ "\x7d\x7d") kv.2) contents

/-- The renderer call `render_template(name, **context)`: look the template up in the store
and render it with the given context variables; fail with
`TemplateError.templateNotFound` when the file is missing or unreadable. -/
def render_template (t : Templates) (name : String)
    (vars : List (String × String)) : Except TemplateError String :=
  match t name with
  | some contents => .ok (substitute vars contents)
  | none => .error (.templateNotFound name)

/-- Handler for `/`: `return render_template('index.html')`. -/
def index (t : Templates) : Except TemplateError String :=
  render_template t "index.html" []

/-- Handler for `/templates/art_museum.html`:
`return render_template('art_museum.html')`. -/
def art_museum (t : Templates) : Except TemplateError String :=
  render_template t "art_museum.html" []

/-- Handler for `/templates/checkers.html`:
`return render_template('checkers.html')`. -/
def checkers (t : Templates) : Except TemplateError String :=
  render_template t "checkers.html" []

/-- Handler for `/templates/drawing.html`:
`return render_template('drawing.html')`. -/
def drawing (t : Templates) : Except TemplateError String :=
  render_template t "drawing.html" []

/-- Handler for `/templates/flightsim.html`:
`return render_template('flightsim.html')`. -/
def flightsim (t : Templates) : Except TemplateError String :=
  render_template t "flightsim.html" []

/-- The route table built by the five `@app.route(...)` registrations:
each URL rule paired with its handler function. -/
def app : List (String × (Templates → Except TemplateError String)) :=
  [("/", index),
   ("/templates/art_museum.html", art_museum),
   ("/templates/checkers.html", checkers),
   ("/templates/drawing.html", drawing),
   ("/templates/flightsim.html", flightsim)]

/-- The five registered URL paths. -/
def registeredPaths : List String := app.map (fun e => e.1)

/-- Body of the hosting framework's stock "not found" page. -/
def defaultNotFoundBody : String := "404 Not Found"

/-- Body of the hosting framework's stock "method not allowed" page. -/
def defaultMethodNotAllowedBody : String := "405 Method Not Allowed"

/-- The framework's dispatch over a given route table: match the request
path exactly against the table's URL rules; on no match answer the stock
404 page; on a match with a method other than GET answer the stock 405
page; otherwise run the handler, wrapping a successful body in a 200
response and propagating a rendering failure unchanged. -/
def dispatch (routes : List (String × (Templates → Except TemplateError String)))
    (t : Templates) (req : Request) : Except TemplateError HttpResponse :=
  match routes.find? (fun e => e.1 == req.path) with
  | none => .ok { status := 404, body := defaultNotFoundBody }
  | some e =>
      if req.method == "GET" then
        (e.2 t).map (fun b => { status := 200, body := b })
      else
        .ok { status := 405, body := defaultMethodNotAllowedBody }

/-- The operation `handle(request)`: the application's dispatch against its
own route table. -/
def handle (t : Templates) (req : Request) : Except TemplateError HttpResponse :=
  dispatch app t req

/-- The server's state: the route table it dispatches against.  It is
populated once, at process start, from the decorator registrations. -/
structure ServerState where
  routes : List (String × (Templates → Except TemplateError String))

/-- The state the process starts in: the table holds exactly the five
registrations. -/
def initState : ServerState := ⟨app⟩

/-- Handling one request: produce the response and the server state after
the request.  No handler in `server.py` writes to `app` or any other
state, so the state after the request is the state before it. -/
def stepReq (s : ServerState) (t : Templates) (req : Request) :
    (Except TemplateError HttpResponse) × ServerState :=
  (dispatch s.routes t req, s)

/-- Handling a sequence of requests in order against unchanged template
files, collecting the responses. -/
def run (t : Templates) (reqs : List Request) : List (Except TemplateError HttpResponse) :=
  reqs.map (handle t)

/-- The configuration the process entry point runs the listener with. -/
structure RunConfig where
  port : Nat
  deriving DecidableEq, Repr

/-- The `__main__` block: `app.run(port=5000)`.  The process surface is
modelled by passing the command line and the environment; the script reads
neither. -/
def serverMain (argv : List String) (env : List (String × String)) : RunConfig :=
  { port := 5000 }

/-- The characters of the final segment of a slash-separated path: scanning
left to right, a slash discards the segment accumulated so far. -/
def lastSegmentAux : List Char → List Char → List Char
  | [], acc => acc
  | c :: cs, acc =>
      if c = '/' then lastSegmentAux cs [] else lastSegmentAux cs (acc ++ [c])

/-- The final segment of a slash-separated path. -/
def lastSegment (p : String) : String :=
  ⟨lastSegmentAux p.data []⟩

/-- A template store mapping every name to itself, used to observe which
template name a handler asks the renderer for. -/
def probe : Templates := fun n => some n

/-- C1: a GET request whose path exactly equals one of the five registered
literal strings returns a 200 response whose body is the rendered document
of the corresponding mapped template (`index.html` for `/`, the like-named
template for each `/templates/...` path). -/
theorem C1_registered_paths_render (t : Templates)
    (qs hs : List (String × String)) (bd c : String) :
    (t "index.html" = some c →
      handle t ⟨"GET", "/", qs, hs, bd⟩ = .ok ⟨200, c⟩) ∧
    (t "art_museum.html" = some c →
      handle t ⟨"GET", "/templates/art_museum.html", qs, hs, bd⟩ = .ok ⟨200, c⟩) ∧
    (t "checkers.html" = some c →
      handle t ⟨"GET", "/templates/checkers.html", qs, hs, bd⟩ = .ok ⟨200, c⟩) ∧
    (t "drawing.html" = some c →
      handle t ⟨"GET", "/templates/drawing.html", qs, hs, bd⟩ = .ok ⟨200, c⟩) ∧
    (t "flightsim.html" = some c →
      handle t ⟨"GET", "/templates/flightsim.html", qs, hs, bd⟩ = .ok ⟨200, c⟩) := by
  refine ⟨?_, ?_, ?_, ?_, ?_⟩ <;> intro hc <;>
    simp [handle, dispatch, app, List.find?, index, art_museum, checkers,
      drawing, flightsim, render_template, substitute, hc, Except.map]

/-- Witness for C1 at the root path with a concrete template store. -/
theorem C1_registered_paths_render_witness :
    handle (fun _ => some "PAGE") ⟨"GET", "/", [], [], ""⟩ =
      .ok ⟨200, "PAGE"⟩ :=
  (C1_registered_paths_render (fun _ => some "PAGE") [] [] "" "PAGE").1 rfl

/-- C2: a GET request whose path is not one of the five registered paths
yields the framework's stock not-found response; no template is rendered
and the dispatcher adds no 404 handling of its own. -/
theorem C2_unregistered_path_not_found (t : Templates) (req : Request)
    (hm : req.method = "GET") (hp : req.path ∉ registeredPaths) :
    handle t req = .ok ⟨404, defaultNotFoundBody⟩ := by
  have hfind : app.find? (fun e => e.1 == req.path) = none := by
    rw [List.find?_eq_none]
    intro x hx
    simp only [app, List.mem_cons, List.not_mem_nil, or_false] at hx
    simp only [registeredPaths, app, List.map_cons, List.map_nil,
      List.mem_cons, List.not_mem_nil, or_false, not_or] at hp
    rcases hx with h | h | h | h | h <;> subst h <;>
      intro hcontra <;> rw [beq_iff_eq] at hcontra <;>
      first
        | exact hp.1 hcontra.symm
        | exact hp.2.1 hcontra.symm
        | exact hp.2.2.1 hcontra.symm
        | exact hp.2.2.2.1 hcontra.symm
        | exact hp.2.2.2.2 hcontra.symm
  simp [handle, dispatch, hfind]

/-- Witness for C2 at a concrete unregistered path. -/
theorem C2_unregistered_path_not_found_witness :
    handle (fun _ => some "PAGE") ⟨"GET", "/nonexistent", [], [], ""⟩ =
      .ok ⟨404, defaultNotFoundBody⟩ :=
  C2_unregistered_path_not_found (fun _ => some "PAGE")
    ⟨"GET", "/nonexistent", [], [], ""⟩ rfl (by decide)

/-- C3: every route handler passes no template variables to the renderer,
so a successful response body is the template file's contents verbatim,
with no dynamic substitution applied. -/
theorem C3_no_template_variables (t : Templates) (c : String) :
    (t "index.html" = some c → index t = .ok c) ∧
    (t "art_museum.html" = some c → art_museum t = .ok c) ∧
    (t "checkers.html" = some c → checkers t = .ok c) ∧
    (t "drawing.html" = some c → drawing t = .ok c) ∧
    (t "flightsim.html" = some c → flightsim t = .ok c) := by
  refine ⟨?_, ?_, ?_, ?_, ?_⟩ <;> intro hc <;>
    simp [index, art_museum, checkers, drawing, flightsim,
      render_template, substitute, hc]

/-- Witness for C3 on the index handler with a concrete store. -/
theorem C3_no_template_variables_witness :
    index (fun _ => some "PAGE") = .ok "PAGE" :=
  (C3_no_template_variables (fun _ => some "PAGE") "PAGE").1 rfl

/-- C4: noninterference — two requests with the same path and method
against the same template store, differing only in request-supplied data
(query parameters, headers, body), produce equal responses. -/
theorem C4_noninterference (t : Templates) (r1 r2 : Request)
    (hp : r1.path = r2.path) (hm : r1.method = r2.method) :
    handle t r1 = handle t r2 := by
  cases r1
  cases r2
  simp only [Request.mk.injEq] at *
  subst hp
  subst hm
  rfl

/-- Witness for C4: two concrete requests differing only in query, headers
and body. -/
theorem C4_noninterference_witness :
    handle (fun _ => some "PAGE") ⟨"GET", "/", [("q", "1")], [("h", "a")], "B"⟩ =
    handle (fun _ => some "PAGE") ⟨"GET", "/", [], [], ""⟩ :=
  C4_noninterference (fun _ => some "PAGE") _ _ rfl rfl

/-- C5: idempotence and determinism — issuing the same GET request twice in
succession against unchanged template files produces byte-identical
responses both times. -/
theorem C5_idempotent (t : Templates) (r : Request)
    (a b : Except TemplateError HttpResponse)
    (hrun : run t [r, r] = [a, b]) : a = b := by
  simp only [run, List.map_cons, List.map_nil, List.cons.injEq,
    and_true] at hrun
  rw [← hrun.1, ← hrun.2]

/-- Witness for C5 on a concrete repeated request. -/
theorem C5_idempotent_witness :
    (Except.ok ⟨200, "PAGE"⟩ : Except TemplateError HttpResponse) =
      .ok ⟨200, "PAGE"⟩ :=
  C5_idempotent (fun _ => some "PAGE") ⟨"GET", "/", [], [], ""⟩ _ _ (by rfl)

/-- C6: the route table's paths are unique, the table is populated at
process start with exactly the five registrations, and handling a request
leaves the server state unchanged — no request mutates, adds to, or
removes from the table. -/
theorem C6_route_table_invariant :
    (app.map (fun e => e.1)).Nodup ∧
    initState.routes = app ∧
    ∀ (s : ServerState) (t : Templates) (r : Request), (stepReq s t r).2 = s := by
  refine ⟨by decide, rfl, ?_⟩
  intro s t r
  rfl

/-- C7: a rendering failure (missing or unreadable template file) on any of
the five routes surfaces as the unchanged `templateNotFound` error naming
that template, and every dispatch either fully succeeds with a response or
fully fails with such an error — there is no partial outcome. -/
theorem C7_render_failure_propagated (t : Templates)
    (qs hs : List (String × String)) (bd : String) :
    (t "index.html" = none →
      handle t ⟨"GET", "/", qs, hs, bd⟩ = .error (.templateNotFound "index.html")) ∧
    (t "art_museum.html" = none →
      handle t ⟨"GET", "/templates/art_museum.html", qs, hs, bd⟩ =
        .error (.templateNotFound "art_museum.html")) ∧
    (t "checkers.html" = none →
      handle t ⟨"GET", "/templates/checkers.html", qs, hs, bd⟩ =
        .error (.templateNotFound "checkers.html")) ∧
    (t "drawing.html" = none →
      handle t ⟨"GET", "/templates/drawing.html", qs, hs, bd⟩ =
        .error (.templateNotFound "drawing.html")) ∧
    (t "flightsim.html" = none →
      handle t ⟨"GET", "/templates/flightsim.html", qs, hs, bd⟩ =
        .error (.templateNotFound "flightsim.html")) ∧
    (∀ req : Request, (∃ resp, handle t req = .ok resp) ∨
      (∃ name, handle t req = .error (.templateNotFound name))) := by
  refine ⟨?_, ?_, ?_, ?_, ?_, ?_⟩
  case _ => intro hc; simp [handle, dispatch, app, List.find?, index,
    render_template, hc, Except.map]
  case _ => intro hc; simp [handle, dispatch, app, List.find?, art_museum,
    render_template, hc, Except.map]
  case _ => intro hc; simp [handle, dispatch, app, List.find?, checkers,
    render_template, hc, Except.map]
  case _ => intro hc; simp [handle, dispatch, app, List.find?, drawing,
    render_template, hc, Except.map]
  case _ => intro hc; simp [handle, dispatch, app, List.find?, flightsim,
    render_template, hc, Except.map]
  case _ =>
    intro req
    cases hres : handle t req with
    | ok resp => exact Or.inl ⟨resp, rfl⟩
    | error e => cases e with
      | templateNotFound name => exact Or.inr ⟨name, rfl⟩

/-- Witness for C7: a store with no files makes the root route fail with
the propagated error naming `index.html`. -/
theorem C7_render_failure_propagated_witness :
    handle (fun _ => none) ⟨"GET", "/", [], [], ""⟩ =
      .error (.templateNotFound "index.html") :=
  (C7_render_failure_propagated (fun _ => none) [] [] "").1 rfl

/-- C8: the process entry point runs the listener on the fixed port 5000,
for every command line and environment — neither is consumed. -/
theorem C8_fixed_port_no_config (argv : List String)
    (env : List (String × String)) :
    serverMain argv env = { port := 5000 } ∧
    serverMain argv env = serverMain [] [] :=
  ⟨rfl, rfl⟩

/-- Finding an element in a list is invariant under permutation when at
most one element can satisfy the predicate. -/
theorem find?_eq_of_perm {α : Type} (p : α → Bool) (l l' : List α)
    (hperm : l.Perm l')
    (huniq : ∀ a ∈ l, ∀ b ∈ l, p a → p b → a = b) :
    l.find? p = l'.find? p := by
  cases hfl : l.find? p with
  | none =>
    cases hfl' : l'.find? p with
    | none => rfl
    | some a =>
      have ha := List.find?_some hfl'
      have hmem := hperm.mem_iff.mpr (List.mem_of_find?_eq_some hfl')
      have := List.find?_eq_none.mp hfl a hmem
      exact absurd ha this
  | some a =>
    have ha := List.find?_some hfl
    have hmem := List.mem_of_find?_eq_some hfl
    cases hfl' : l'.find? p with
    | none =>
      have := List.find?_eq_none.mp hfl' a (hperm.mem_iff.mp hmem)
      exact absurd ha this
    | some b =>
      have hb := List.find?_some hfl'
      have hmemb := hperm.mem_iff.mpr (List.mem_of_find?_eq_some hfl')
      exact congrArg some (huniq a hmem b hmemb ha hb)

/-- C9: dispatch is order-independent — against any permutation of the
route table, every request produces the same result, because matching is
exact string comparison against disjoint literal paths. -/
theorem C9_dispatch_order_independent
    (routes2 : List (String × (Templates → Except TemplateError String)))
    (hperm : app.Perm routes2) (t : Templates) (req : Request) :
    dispatch routes2 t req = dispatch app t req := by
  have hnd : (app.map (fun e => e.1)).Nodup := by decide
  have hfind : app.find? (fun e => e.1 == req.path) =
      routes2.find? (fun e => e.1 == req.path) := by
    refine find?_eq_of_perm _ app routes2 hperm ?_
    intro a ha b hb hpa hpb
    refine List.inj_on_of_nodup_map hnd ha hb ?_
    have h1 : a.1 = req.path := by rwa [beq_iff_eq] at hpa
    have h2 : b.1 = req.path := by rwa [beq_iff_eq] at hpb
    simp [h1, h2]
  unfold dispatch
  rw [← hfind]

/-- Witness for C9: dispatch through the reversed table agrees with
dispatch through the original table on a concrete request. -/
theorem C9_dispatch_order_independent_witness :
    dispatch app.reverse (fun _ => some "PAGE")
        ⟨"GET", "/templates/checkers.html", [], [], ""⟩ =
      dispatch app (fun _ => some "PAGE")
        ⟨"GET", "/templates/checkers.html", [], [], ""⟩ :=
  C9_dispatch_order_independent app.reverse (app.reverse_perm).symm
    (fun _ => some "PAGE") ⟨"GET", "/templates/checkers.html", [], [], ""⟩

/-- C10: in every route table entry, the handler renders the template whose
name is the final segment of the entry's path, except the root path `/`,
which renders `index.html`.  The name a handler asks the renderer for is
observed through the identity store `probe`. -/
theorem C10_template_name_matches_path
    (e : String × (Templates → Except TemplateError String)) (he : e ∈ app) :
    (e.1 = "/" → e.2 probe = .ok "index.html") ∧
    (e.1 ≠ "/" → e.2 probe = .ok (lastSegment e.1)) := by
  simp only [app, List.mem_cons, List.not_mem_nil, or_false] at he
  rcases he with h | h | h | h | h <;> subst h
  · exact ⟨fun _ => rfl, fun hp => absurd rfl hp⟩
  · refine ⟨fun hp => absurd hp (by decide), fun _ => ?_⟩
    show art_museum probe = .ok (lastSegment "/templates/art_museum.html")
    have hseg : lastSegment "/templates/art_museum.html" = "art_museum.html" := by
      decide
    rw [hseg]
    rfl
  · refine ⟨fun hp => absurd hp (by decide), fun _ => ?_⟩
    show checkers probe = .ok (lastSegment "/templates/checkers.html")
    have hseg : lastSegment "/templates/checkers.html" = "checkers.html" := by
      decide
    rw [hseg]
    rfl
  · refine ⟨fun hp => absurd hp (by decide), fun _ => ?_⟩
    show drawing probe = .ok (lastSegment "/templates/drawing.html")
    have hseg : lastSegment "/templates/drawing.html" = "drawing.html" := by
      decide
    rw [hseg]
    rfl
  · refine ⟨fun hp => absurd hp (by decide), fun _ => ?_⟩
    show flightsim probe = .ok (lastSegment "/templates/flightsim.html")
    have hseg : lastSegment "/templates/flightsim.html" = "flightsim.html" := by
      decide
    rw [hseg]
    rfl

/-- Witness for C10 on the checkers entry. -/
theorem C10_template_name_matches_path_witness :
    checkers probe = .ok (lastSegment "/templates/checkers.html") :=
  (C10_template_name_matches_path ("/templates/checkers.html", checkers)
    (List.Mem.tail _ (List.Mem.tail _ (List.Mem.head _)))).2 (by decide)

end Server
